import Mathlib

/-!
Verification of the asynchronous job orchestration engine and caching gateway
of the ProjectAether backend.

The development shallowly embeds the relevant Python modules:

* `app/services/external_api_service.py` — cache key derivation
  (`_generate_cache_key`), cache reads (`_get_cached_result`) and cache
  writes (`_set_cached_result`) against Redis;
* `app/services/ai_service.py` — `invoke_gemini_model` and the
  backward-compatibility wrapper `invoke_claude_model`;
* `app/tasks/crawler_tasks.py` — the `run_site_crawl` Celery task, its
  progress envelopes and the Celery automatic-retry loop
  (`autoretry_for=(Exception,)`, `max_retries=3`);
* `app/api/v1/endpoints/audits.py` — the `get_audit_status` endpoint.

Machine integers are modelled as `Nat` with explicit reduction mod `2 ^ 32`
where the source's SHA-256 arithmetic wraps; fallible Python code is modelled
with `Except`, where `.error` marks an exception propagating to the caller.
-/

set_option linter.unusedVariables false

namespace ProjectAether

/-! ## SHA-256 (the hash applied by `_generate_cache_key` via `hashlib.sha256`)

A complete executable SHA-256 over the UTF-8 bytes of the input string,
exactly as `hashlib.sha256(key_data.encode()).hexdigest()` computes it.
All words are `Nat` values kept below `2 ^ 32` by explicit `% 4294967296`.
-/

/-- Wrap-around 32-bit addition. -/
def add32 (a b : Nat) : Nat := (a + b) % 4294967296

/-- 32-bit right rotation. -/
def rotr32 (x n : Nat) : Nat := ((x >>> n) ||| (x <<< (32 - n))) % 4294967296

/-- Bitwise complement within 32 bits. -/
def not32 (x : Nat) : Nat := x ^^^ 4294967295

/-- SHA-256 small sigma 0. -/
def smallSigma0 (x : Nat) : Nat := (rotr32 x 7) ^^^ (rotr32 x 18) ^^^ (x >>> 3)

/-- SHA-256 small sigma 1. -/
def smallSigma1 (x : Nat) : Nat := (rotr32 x 17) ^^^ (rotr32 x 19) ^^^ (x >>> 10)

/-- SHA-256 big sigma 0. -/
def bigSigma0 (x : Nat) : Nat := (rotr32 x 2) ^^^ (rotr32 x 13) ^^^ (rotr32 x 22)

/-- SHA-256 big sigma 1. -/
def bigSigma1 (x : Nat) : Nat := (rotr32 x 6) ^^^ (rotr32 x 11) ^^^ (rotr32 x 25)

/-- SHA-256 choice function. -/
def ch32 (x y z : Nat) : Nat := (x &&& y) ^^^ ((not32 x) &&& z)

/-- SHA-256 majority function. -/
def maj32 (x y z : Nat) : Nat := (x &&& y) ^^^ (x &&& z) ^^^ (y &&& z)

/-- The 64 SHA-256 round constants (FIPS 180-4), written in decimal. -/
def sha256K : List Nat :=
  [1116352408, 1899447441, 3049323471, 3921009573, 961987163, 1508970993,
   2453635748, 2870763221, 3624381080, 310598401, 607225278, 1426881987,
   1925078388, 2162078206, 2614888103, 3248222580, 3835390401, 4022224774,
   264347078, 604807628, 770255983, 1249150122, 1555081692, 1996064986,
   2554220882, 2821834349, 2952996808, 3210313671, 3336571891, 3584528711,
   113926993, 338241895, 666307205, 773529912, 1294757372, 1396182291,
   1695183700, 1986661051, 2177026350, 2456956037, 2730485921, 2820302411,
   3259730800, 3345764771, 3516065817, 3600352804, 4094571909, 275423344,
   430227734, 506948616, 659060556, 883997877, 958139571, 1322822218,
   1537002063, 1747873779, 1955562222, 2024104815, 2227730452, 2361852424,
   2428436474, 2756734187, 3204031479, 3329325298]

/-- The eight SHA-256 working registers. -/
structure Hash8 where
  a : Nat
  b : Nat
  c : Nat
  d : Nat
  e : Nat
  f : Nat
  g : Nat
  h : Nat
  deriving Repr, DecidableEq

/-- SHA-256 initial hash value (FIPS 180-4), written in decimal. -/
def sha256H0 : Hash8 :=
  ⟨1779033703, 3144134277, 1013904242, 2773480762,
   1359893119, 2600822924, 528734635, 1541459225⟩

/-- Extend 16 message words to the 64-entry message schedule. -/
def extendSchedule (ws : List Nat) : List Nat :=
  ((List.range 48).foldl
    (fun (w : Array Nat) i =>
      let t := i + 16
      w.push (add32 (add32 (smallSigma1 (w.getD (t - 2) 0)) (w.getD (t - 7) 0))
                    (add32 (smallSigma0 (w.getD (t - 15) 0)) (w.getD (t - 16) 0))))
    ws.toArray).toList

/-- One SHA-256 compression round with schedule word `w` and constant `k`. -/
def sha256Round (s : Hash8) (w k : Nat) : Hash8 :=
  let t1 := add32 (add32 (add32 s.h (bigSigma1 s.e)) (add32 (ch32 s.e s.f s.g) k)) w
  let t2 := add32 (bigSigma0 s.a) (maj32 s.a s.b s.c)
  ⟨add32 t1 t2, s.a, s.b, s.c, add32 s.d t1, s.e, s.f, s.g⟩

/-- Read 16 big-endian 32-bit words out of a 64-byte block. -/
def blockWords (bytes : List Nat) : List Nat :=
  (List.range 16).map fun wi =>
    bytes.getD (4 * wi) 0 * 16777216 + bytes.getD (4 * wi + 1) 0 * 65536 +
    bytes.getD (4 * wi + 2) 0 * 256 + bytes.getD (4 * wi + 3) 0

/-- Compress one 64-byte block into the running hash state. -/
def compressBlock (h : Hash8) (block : List Nat) : Hash8 :=
  let w := extendSchedule (blockWords block)
  let s := (w.zip sha256K).foldl (fun s wk => sha256Round s wk.1 wk.2) h
  ⟨add32 h.a s.a, add32 h.b s.b, add32 h.c s.c, add32 h.d s.d,
   add32 h.e s.e, add32 h.f s.f, add32 h.g s.g, add32 h.h s.h⟩

/-- The 8-byte big-endian encoding of the message bit length. -/
def lengthBytes (bitLen : Nat) : List Nat :=
  (List.range 8).map fun i => (bitLen >>> (56 - 8 * i)) % 256

/-- SHA-256 padding: append `0x80`, zero bytes to 56 mod 64, then the bit length. -/
def sha256Pad (msg : List Nat) : List Nat :=
  msg ++ 0x80 :: List.replicate ((119 - msg.length % 64) % 64) 0 ++ lengthBytes (8 * msg.length)

/-- The UTF-8 bytes of a string, as `str.encode()` produces them. -/
def strBytes (s : String) : List Nat := s.toUTF8.toList.map (·.toNat)

/-- The eight 32-bit words of the SHA-256 digest of a string. -/
def sha256Words (s : String) : List Nat :=
  let padded := sha256Pad (strBytes s)
  let hh := (List.range (padded.length / 64)).foldl
    (fun h bi => compressBlock h ((padded.drop (64 * bi)).take 64)) sha256H0
  [hh.a, hh.b, hh.c, hh.d, hh.e, hh.f, hh.g, hh.h]

/-- Lower-case hex digit for a value below 16. -/
def hexDigit (n : Nat) : Char := if n < 10 then Char.ofNat (48 + n) else Char.ofNat (87 + n)

/-- The 8 hex characters of one 32-bit word, most significant nibble first. -/
def wordHex (w : Nat) : List Char :=
  (List.range 8).map fun i => hexDigit ((w >>> (28 - 4 * i)) % 16)

/-- `hashlib.sha256(s.encode()).hexdigest()`: the 64-character hex digest. -/
def sha256hex (s : String) : String := String.mk ((sha256Words s).map wordHex).flatten

/-! ## Cache key derivation — `_generate_cache_key` in `external_api_service.py`

```python
key_data = f"{prefix}:" + ":".join(f"{k}={v}" for k, v in sorted(kwargs.items()))
key_hash = hashlib.sha256(key_data.encode()).hexdigest()
return f"{prefix}:{key_hash}"
```

Keyword arguments are modelled as a list of (name, stringified value) pairs;
`sorted` on tuples compares the name first and the value second, and with a
total antisymmetric order its result is canonical, so it is embedded as
`mergeSort` under that lexicographic order.
-/

/-- Python tuple comparison `(k1, v1) <= (k2, v2)` for string pairs. -/
def pairLE (a b : String × String) : Bool :=
  decide (a.1 < b.1) || (a.1 == b.1 && decide (a.2 ≤ b.2))

/-- `sorted(kwargs.items())`. -/
def sortedParams (params : List (String × String)) : List (String × String) :=
  params.mergeSort pairLE

/-- The serialized parameter set `f"{prefix}:" + ":".join(f"{k}={v}" ...)`. -/
def keyData (pfx : String) (params : List (String × String)) : String :=
  pfx ++ ":" ++ String.intercalate ":" ((sortedParams params).map fun kv => kv.1 ++ "=" ++ kv.2)

/-- `_generate_cache_key(prefix, **kwargs)`. -/
def generate_cache_key (pfx : String) (params : List (String × String)) : String :=
  pfx ++ ":" ++ sha256hex (keyData pfx params)

/-! ## Redis-backed cache reads and writes

`_get_cached_result` and `_set_cached_result` run against a module-level
`redis_client` that is `None` when the initial connection failed.  The store
itself is modelled with explicit entries `key ↦ (value, expires_at)` and a
clock, matching `setex`/TTL expiry semantics; a call that reaches the network
may instead raise `redis.RedisError`.  `Except PyExc _` is the result type:
`.error` means a Python exception escapes to the caller.
-/

/-- Python exception classes that can escape the functions modelled here. -/
inductive PyExc where
  | valueError
  | runtimeError
  | attributeError
  deriving DecidableEq, Repr

/-- State of the Redis key-value store: entries with absolute expiry, and a clock. -/
structure RedisStore where
  entries : String → Option (String × Nat)
  now : Nat

/-- A Redis `GET`: a value is returned only while `now < expires_at`. -/
def redisGet (st : RedisStore) (key : String) : Option String :=
  match st.entries key with
  | some (v, expiresAt) => if st.now < expiresAt then some v else none
  | none => none

/-- Outcome of one attempt to contact the backing store. -/
inductive ConnOutcome where
  | fromStore (st : RedisStore)
  | raiseRedis (msg : String)

/-- `_get_cached_result(cache_key)`.  `clientAvailable` is `redis_client is not None`;
`decode` is `json.loads`, whose failure is `json.JSONDecodeError`.  Both
`redis.RedisError` and `json.JSONDecodeError` are caught and mapped to `None`,
and an empty reply string is falsy in Python, hence also a miss. -/
def get_cached_result {V : Type} (clientAvailable : Bool) (conn : ConnOutcome)
    (key : String) (decode : String → Except String V) : Except PyExc (Option V) :=
  if !clientAvailable then .ok none
  else
    match conn with
    | .raiseRedis _ => .ok none
    | .fromStore st =>
      match redisGet st key with
      | none => .ok none
      | some s =>
        if s = "" then .ok none
        else
          match decode s with
          | .ok v => .ok (some v)
          | .error _ => .ok none

/-- What happens inside the `try` block of `_set_cached_result`. -/
inductive SetOutcome where
  | written
  | raiseRedis (msg : String)
  | raiseEncode (msg : String)
  deriving DecidableEq, Repr

/-- `_set_cached_result(cache_key, result, ttl)`.  The handler clause is
`except (redis.RedisError, json.JSONEncodeError)`, but the stdlib `json`
module has no attribute `JSONEncodeError` (only `JSONDecodeError`); Python
evaluates the clause's tuple only once an exception is in flight, so the
attribute lookup then raises `AttributeError`, which replaces the original
exception and propagates to the caller. -/
def set_cached_result (clientAvailable : Bool) (writeOutcome : SetOutcome) :
    Except PyExc Unit :=
  if !clientAvailable then .ok ()
  else
    match writeOutcome with
    | .written => .ok ()
    | .raiseRedis _ => .error .attributeError
    | .raiseEncode _ => .error .attributeError

/-! ## AI service — `invoke_gemini_model` / `invoke_claude_model` in `ai_service.py`

`invoke_gemini_model` first validates the prompt (`ValueError` when empty or
whitespace-only), then checks the module-level `vertex_model` (`RuntimeError`
when `None`), and runs everything else inside one `try` whose handlers —
`InvalidArgument`, `ResourceExhausted`, `PermissionDenied`, `GoogleAPIError`
and a final bare `Exception` — all return the empty string.  The outcome of
the Vertex AI interaction is an explicit input `api` of the model.
-/

/-- The code points of the characters `str.isspace()` holds of — exactly the
set a no-argument `str.strip()` removes.  Beyond ASCII whitespace this
includes the separators U+1C–U+1F, NEL (U+85), NBSP (U+A0), Ogham space mark
(U+1680), the U+2000–U+200A spaces, line/paragraph separators (U+2028/29),
narrow NBSP (U+202F), medium mathematical space (U+205F) and ideographic
space (U+3000). -/
def pyWhitespaceCodes : List Nat :=
  [9, 10, 11, 12, 13, 28, 29, 30, 31, 32, 133, 160, 5760,
   8192, 8193, 8194, 8195, 8196, 8197, 8198, 8199, 8200, 8201, 8202,
   8232, 8233, 8239, 8287, 12288]

/-- The characters `str.strip()` removes: Unicode whitespace. -/
def isPyWhitespace (c : Char) : Bool := pyWhitespaceCodes.contains c.toNat

/-- `not prompt or not prompt.strip()`: the string is empty or whitespace-only. -/
def pyBlank (s : String) : Bool := s.data.all isPyWhitespace

/-- Classification of the exceptions the Vertex AI call can raise, following
the handler list in the source. -/
inductive ApiErr where
  | invalidArgument (msg : String)
  | resourceExhausted (msg : String)
  | permissionDenied (msg : String)
  | googleAPIError (msg : String)
  | unexpected (msg : String)
  deriving DecidableEq, Repr

/-- Outcome of `vertex_model.generate_content` together with the response-text
extraction: either a response whose `.text` is the given string (empty when
the response carried no content), or an exception. -/
inductive ApiResult where
  | success (text : String)
  | raise (e : ApiErr)
  deriving DecidableEq, Repr

/-- The string `invoke_gemini_model` returns for a given API outcome: the
response text on success, `""` on a falsy response text, `""` for every
caught exception. -/
def apiResultText : ApiResult → String
  | .success t => t
  | .raise _ => ""

/-- `invoke_gemini_model(prompt, model_name, response_mime_type)`.
`clientInitialized` is `vertex_model is not None`. -/
def invoke_gemini_model (prompt : String) (model_name : String)
    (response_mime_type : String) (clientInitialized : Bool) (api : ApiResult) :
    Except PyExc String :=
  if pyBlank prompt then .error .valueError
  else if !clientInitialized then .error .runtimeError
  else
    match api with
    | .success t => .ok t
    | .raise _ => .ok ""

/-- `invoke_claude_model(prompt, model_id)`: the backward-compatibility
wrapper, which ignores `model_id` and delegates with the module defaults
(`model_name="gemini-2.5-pro"` by default, `response_mime_type="application/json"`). -/
def invoke_claude_model (prompt : String) (model_id : Option String)
    (clientInitialized : Bool) (api : ApiResult) : Except PyExc String :=
  invoke_gemini_model prompt "gemini-2.5-pro" "application/json" clientInitialized api

/-! ## Crawler task — `run_site_crawl` in `crawler_tasks.py`

The task body publishes `PROGRESS` envelopes via `self.update_state` at fixed
milestones: `initialization` at 0, `discovery` at 5, a `crawling` update at
every tenth page with `int((page_num / total_pages) * 70) + 20` (the integer
division model agrees with the float expression on the whole reachable
domain `page_num ≤ total_pages ≤ 50`), and `analysis` at 90.  100 is never
published.  `total_pages = min(max_pages, 50)` and the loop leaves
`crawled_pages = total_pages`.

An attempt is modelled as the sequence of its observable events (phase
entries, from the `logger.info` phase markers, and published envelopes); an
exception injected by the environment after `k` events truncates the
sequence and aborts the attempt with that error.

The task decorator is `autoretry_for=(Exception,)` with
`retry_kwargs={'max_retries': 3, 'countdown': 60}`: every exception the body
raises is auto-retried until `self.request.retries` reaches `max_retries`,
so an always-failing body executes `max_retries + 1` times in total, and the
final failure records the exception raised by the last attempt.
-/

/-- Kind of a Python exception reaching the task body, per the spec's error
taxonomy (the Celery config treats all of them alike). -/
inductive ErrKind where
  | transient
  | permanent
  | other
  deriving DecidableEq, Repr

/-- A Python exception value: its classification and `str(e)`. -/
structure PyErr where
  kind : ErrKind
  msg : String
  deriving DecidableEq, Repr

/-- `autoretry_for=(Exception,)`: every exception matches the tuple. -/
def autoretryFor (_ : PyErr) : Bool := true

/-- One `PROGRESS` envelope published through `self.update_state`. -/
structure Envelope where
  phase : String
  progress : Nat
  deriving DecidableEq, Repr

/-- An observable event of the task body. -/
inductive Ev where
  | enter (phase : String)
  | publish (e : Envelope)
  deriving DecidableEq, Repr

/-- `int((page_num / total_pages) * 70) + 20`, the 20–90% crawl progress. -/
def crawlProgress (pageNum totalPages : Nat) : Nat :=
  pageNum * 70 / totalPages + 20

/-- The `crawling` envelopes: one per `page_num` in `1..total_pages` with
`page_num % 10 == 0`. -/
def crawlUpdates (totalPages : Nat) : List Envelope :=
  ((List.range' 1 totalPages).filter (fun p => p % 10 == 0)).map
    fun p => ⟨"crawling", crawlProgress p totalPages⟩

/-- The full event sequence of one attempt that runs to completion. -/
def attemptEvents (maxPages : Nat) : List Ev :=
  [.enter "initialization", .publish ⟨"initialization", 0⟩,
   .enter "discovery", .publish ⟨"discovery", 5⟩,
   .enter "crawling"] ++
  (crawlUpdates (min maxPages 50)).map .publish ++
  [.enter "analysis", .publish ⟨"analysis", 90⟩]

/-- The crawl summary of a completed attempt (`crawl_results['crawl_summary']`,
restricted to the counters the spec tracks). -/
structure CrawlResult where
  totalPagesCrawled : Nat
  totalPagesDiscovered : Nat
  deriving DecidableEq, Repr

/-- One execution of the task body.  `fail = some (k, e)` injects exception
`e` after `k` events; `fail = none` lets the body run to completion. -/
def runAttempt (maxPages : Nat) (fail : Option (Nat × PyErr)) :
    List Ev × Except PyErr CrawlResult :=
  match fail with
  | none => (attemptEvents maxPages, .ok ⟨min maxPages 50, min maxPages 50⟩)
  | some (k, e) => ((attemptEvents maxPages).take k, .error e)

/-- Terminal outcome of the Celery task. -/
inductive Final where
  | success (r : CrawlResult)
  | failed (errmsg : String)
  deriving DecidableEq, Repr

/-- Summary of a whole task execution including retries. -/
structure RunOutcome where
  attempts : Nat
  events : List Ev
  final : Final
  deriving DecidableEq, Repr

/-- The Celery retry loop from attempt `attemptIdx` with `retriesLeft`
retries remaining.  `env n` injects the failure (if any) of attempt `n`.
When an attempt raises and the exception matches `autoretry_for`, Celery
re-executes the body while retries remain; once they are exhausted the
exception of the last attempt marks the task `FAILURE`. -/
def runFrom (maxPages : Nat) (env : Nat → Option (Nat × PyErr)) :
    Nat → Nat → RunOutcome
  | attemptIdx, 0 =>
    match runAttempt maxPages (env attemptIdx) with
    | (evs, .ok r) => ⟨1, evs, .success r⟩
    | (evs, .error e) => ⟨1, evs, .failed e.msg⟩
  | attemptIdx, n + 1 =>
    match runAttempt maxPages (env attemptIdx) with
    | (evs, .ok r) => ⟨1, evs, .success r⟩
    | (evs, .error e) =>
      if autoretryFor e then
        let rest := runFrom maxPages env (attemptIdx + 1) n
        ⟨rest.attempts + 1, evs ++ rest.events, rest.final⟩
      else ⟨1, evs, .failed e.msg⟩

/-- The task as Celery executes it: `max_retries` from `retry_kwargs`
(3 in the decorator). -/
def celeryRun (maxRetries maxPages : Nat) (env : Nat → Option (Nat × PyErr)) :
    RunOutcome :=
  runFrom maxPages env 0 maxRetries

/-- The progress values published by a list of events, in publication order. -/
def progressesOf (evs : List Ev) : List Nat :=
  evs.filterMap fun e =>
    match e with
    | .publish env => some env.progress
    | .enter _ => none

/-- The phases entered by a list of events, in order. -/
def phasesOf (evs : List Ev) : List String :=
  evs.filterMap fun e =>
    match e with
    | .enter p => some p
    | .publish _ => none

/-! ## Status endpoint — `get_audit_status` in `audits.py`

The endpoint calls `celery_app.AsyncResult(task_id)`.  A Celery
`AsyncResult` is an ordinary object with no `__bool__`/`__len__`, so it is
always truthy, even for an identifier no task ever had: the backend then
simply reports state `PENDING` with empty info.  The `if not task_result`
guard in the source (meant to produce 404) therefore never fires; it is kept
in the model, conditioned on that constant truthiness.
-/

/-- The state a Celery result backend holds for a task id. -/
inductive TaskState where
  | pending
  | progress (meta : Envelope)
  | success (r : CrawlResult)
  | failure (errmsg : String)
  deriving DecidableEq, Repr

/-- `celery_app.AsyncResult(task_id)`: an unknown or expired id yields a
result object in state `PENDING`, never `None`. -/
def asyncResult (store : String → Option TaskState) (task_id : String) : TaskState :=
  (store task_id).getD .pending

/-- Celery `AsyncResult` instances are always truthy. -/
def asyncResultTruthy : Bool := true

/-- An `HTTPException` with its status code and detail. -/
structure HttpErr where
  statusCode : Nat
  detail : String
  deriving DecidableEq, Repr

/-- The JSON body `get_audit_status` builds. -/
structure StatusResponse where
  task_id : String
  statusField : String
  result : Option CrawlResult
  progressField : Option Envelope
  error : Option String
  message : String
  deriving DecidableEq, Repr

/-- `get_audit_status(task_id)` against a given result backend. -/
def get_audit_status (store : String → Option TaskState) (task_id : String) :
    Except HttpErr StatusResponse :=
  let task_result := asyncResult store task_id
  if !asyncResultTruthy then .error ⟨404, "Task not found"⟩
  else
    match task_result with
    | .pending =>
      .ok ⟨task_id, "PENDING", none, none, none, "Task is waiting to be processed"⟩
    | .progress meta =>
      .ok ⟨task_id, "PROGRESS", none, some meta, none, "Task is being processed"⟩
    | .success r =>
      .ok ⟨task_id, "SUCCESS", some r, none, none, "Task completed successfully"⟩
    | .failure errmsg =>
      .ok ⟨task_id, "FAILURE", none, none, some errmsg, "Task failed to complete"⟩

/-! ## Concrete scenarios used by the theorems below -/

/-- Environment in which every attempt raises a transient error
("network timeout") after two observable events. -/
def alwaysTransientEnv : Nat → Option (Nat × PyErr) :=
  fun _ => some (2, ⟨.transient, "network timeout"⟩)

/-- Environment in which every attempt raises a permanent error
("invalid argument") immediately. -/
def alwaysPermanentEnv : Nat → Option (Nat × PyErr) :=
  fun _ => some (0, ⟨.permanent, "invalid argument"⟩)

/-- Environment whose first attempt raises a permanent error after `k`
events, while all later attempts run to completion. -/
def permanentOnFirstEnv (k : Nat) (msg : String) : Nat → Option (Nat × PyErr) :=
  fun n => if n = 0 then some (k, ⟨.permanent, msg⟩) else none

/-- Environment whose first attempt is aborted right after the discovery
envelope (four events in), while the second attempt runs to completion. -/
def abortedThenCleanEnv : Nat → Option (Nat × PyErr) :=
  fun n => if n = 0 then some (4, ⟨.transient, "worker lost"⟩) else none

/-- Environment in which no attempt fails. -/
def noFailEnv : Nat → Option (Nat × PyErr) := fun _ => none

/-- A Celery result backend holding no record for any identifier. -/
def emptyBackend : String → Option TaskState := fun _ => none

/-- A Redis store holding one unexpired entry, used to witness a cache hit. -/
def witnessStore : RedisStore :=
  ⟨fun k => if k = "pagespeed:abc" then some ("cached", 100) else none, 42⟩

/-- A trivial decoder standing in for `json.loads` on a well-formed payload. -/
def witnessDecode : String → Except String String := fun s => .ok s

/-! ## Helper lemmas

`sorted` over tuples is canonical: the lexicographic pair order is total,
transitive and antisymmetric, so sorting any two permutation-equal parameter
lists yields the same list.
-/

theorem pairLE_trans (a b c : String × String) (h₁ : pairLE a b = true)
    (h₂ : pairLE b c = true) : pairLE a c = true := by
  simp only [pairLE, Bool.or_eq_true, Bool.and_eq_true, decide_eq_true_eq,
    beq_iff_eq] at h₁ h₂ ⊢
  rcases h₁ with h₁ | ⟨h₁e, h₁v⟩ <;> rcases h₂ with h₂ | ⟨h₂e, h₂v⟩
  · exact Or.inl (lt_trans h₁ h₂)
  · exact Or.inl (by rw [← h₂e]; exact h₁)
  · exact Or.inl (by rw [h₁e]; exact h₂)
  · exact Or.inr ⟨h₁e.trans h₂e, le_trans h₁v h₂v⟩

theorem pairLE_total (a b : String × String) : (pairLE a b || pairLE b a) = true := by
  simp only [pairLE, Bool.or_eq_true, Bool.and_eq_true, decide_eq_true_eq, beq_iff_eq]
  rcases lt_trichotomy a.1 b.1 with h | h | h
  · exact Or.inl (Or.inl h)
  · rcases le_total a.2 b.2 with hv | hv
    · exact Or.inl (Or.inr ⟨h, hv⟩)
    · exact Or.inr (Or.inr ⟨h.symm, hv⟩)
  · exact Or.inr (Or.inl h)

theorem pairLE_antisymm (a b : String × String) (h₁ : pairLE a b = true)
    (h₂ : pairLE b a = true) : a = b := by
  simp only [pairLE, Bool.or_eq_true, Bool.and_eq_true, decide_eq_true_eq,
    beq_iff_eq] at h₁ h₂
  rcases h₁ with h₁ | ⟨h₁e, h₁v⟩ <;> rcases h₂ with h₂ | ⟨h₂e, h₂v⟩
  · exact absurd h₂ (lt_asymm h₁)
  · exact absurd h₁ (by rw [h₂e]; exact lt_irrefl _)
  · exact absurd h₂ (by rw [← h₁e]; exact lt_irrefl _)
  · exact Prod.ext h₁e (le_antisymm h₁v h₂v)

theorem sortedParams_perm {l₁ l₂ : List (String × String)} (h : l₁.Perm l₂) :
    sortedParams l₁ = sortedParams l₂ := by
  haveI : IsAntisymm (String × String) (fun a b => pairLE a b = true) :=
    ⟨fun a b => pairLE_antisymm a b⟩
  exact List.eq_of_perm_of_sorted
    ((List.mergeSort_perm l₁ pairLE).trans (h.trans (List.mergeSort_perm l₂ pairLE).symm))
    (List.sorted_mergeSort (fun a b c => pairLE_trans a b c) (fun a b => pairLE_total a b) l₁)
    (List.sorted_mergeSort (fun a b c => pairLE_trans a b c) (fun a b => pairLE_total a b) l₂)

theorem sha256Words_length (s : String) : (sha256Words s).length = 8 := by
  simp [sha256Words]

theorem wordHex_length (w : Nat) : (wordHex w).length = 8 := by
  simp [wordHex]

theorem flatten_map_wordHex_length (ws : List Nat) :
    ((ws.map wordHex).flatten).length = 8 * ws.length := by
  induction ws with
  | nil => simp
  | cons w t ih => simp [wordHex_length, ih]; omega

theorem sha256hex_length (s : String) : (sha256hex s).length = 64 := by
  show (((sha256Words s).map wordHex).flatten).length = 64
  rw [flatten_map_wordHex_length, sha256Words_length]

theorem crawlProgress_mono (t : Nat) {p q : Nat} (h : p ≤ q) :
    crawlProgress p t ≤ crawlProgress q t :=
  Nat.add_le_add_right (Nat.div_le_div_right (Nat.mul_le_mul_right 70 h)) 20

theorem crawlProgress_le_90 {p t : Nat} (hp : p ≤ t) : crawlProgress p t ≤ 90 := by
  unfold crawlProgress
  have h70 : p * 70 / t ≤ 70 := by
    rcases Nat.eq_zero_or_pos t with h0 | h0
    · subst h0; simp
    · calc p * 70 / t ≤ t * 70 / t := Nat.div_le_div_right (Nat.mul_le_mul_right 70 hp)
        _ = 70 := Nat.mul_div_cancel_left 70 h0
  omega

theorem progressesOf_append (l₁ l₂ : List Ev) :
    progressesOf (l₁ ++ l₂) = progressesOf l₁ ++ progressesOf l₂ := by
  simp [progressesOf]

theorem progressesOf_map_publish (l : List Envelope) :
    progressesOf (l.map .publish) = l.map Envelope.progress := by
  induction l with
  | nil => rfl
  | cons a t ih => simp only [List.map_cons, progressesOf, List.filterMap_cons] at ih ⊢; rw [ih]

/-- The progress values of one complete attempt, in publication order. -/
theorem progressesOf_attemptEvents (mp : Nat) :
    progressesOf (attemptEvents mp) =
      (0 :: 5 :: ((List.range' 1 (min mp 50)).filter fun p => p % 10 == 0).map
        (fun p => crawlProgress p (min mp 50))) ++ [90] := by
  unfold attemptEvents crawlUpdates
  rw [progressesOf_append, progressesOf_append, progressesOf_map_publish, List.map_map]
  rfl

/-- Every page number the crawl loop publishes is at most `total_pages`. -/
theorem mem_crawl_pages {p t : Nat}
    (h : p ∈ (List.range' 1 t).filter fun q => q % 10 == 0) : p ≤ t := by
  have hm := (List.mem_filter.mp h).1
  have := List.mem_range'_1.mp hm
  omega

/-- The progress values of one complete attempt are pairwise non-decreasing. -/
theorem pairwise_progresses_attempt (mp : Nat) :
    List.Pairwise (· ≤ ·) (progressesOf (attemptEvents mp)) := by
  rw [progressesOf_attemptEvents]
  have hps : List.Pairwise (· < ·)
      ((List.range' 1 (min mp 50)).filter fun q => q % 10 == 0) :=
    (List.pairwise_lt_range' 1 (min mp 50)).filter _
  have hmap : List.Pairwise (· ≤ ·)
      (((List.range' 1 (min mp 50)).filter fun q => q % 10 == 0).map
        fun p => crawlProgress p (min mp 50)) := by
    rw [List.pairwise_map]
    exact hps.imp fun hlt => crawlProgress_mono _ (Nat.le_of_lt hlt)
  have hb : ∀ x ∈ ((List.range' 1 (min mp 50)).filter fun q => q % 10 == 0).map
      (fun p => crawlProgress p (min mp 50)), 20 ≤ x ∧ x ≤ 90 := by
    intro x hx
    obtain ⟨p, hp, rfl⟩ := List.mem_map.mp hx
    exact ⟨Nat.le_add_left 20 _, crawlProgress_le_90 (mem_crawl_pages hp)⟩
  rw [List.pairwise_append]
  refine ⟨?_, List.pairwise_singleton _ _, ?_⟩
  · rw [List.pairwise_cons]
    refine ⟨?_, ?_⟩
    · intro b hb'
      exact Nat.zero_le b
    · rw [List.pairwise_cons]
      exact ⟨fun b hb' => le_trans (by omega : (5 : Nat) ≤ 20) (hb b hb').1, hmap⟩
  · intro x hx y hy
    rw [List.mem_singleton] at hy
    subst hy
    simp only [List.mem_cons] at hx
    rcases hx with rfl | rfl | hx
    · omega
    · omega
    · exact (hb x hx).2

/-- The progress values any single attempt publishes (complete or aborted)
form a non-decreasing sequence bounded by 90. -/
theorem attempt_progress_invariant (mp : Nat) (fail : Option (Nat × PyErr)) :
    List.Chain' (· ≤ ·) (progressesOf (runAttempt mp fail).1) ∧
      ∀ p ∈ progressesOf (runAttempt mp fail).1, p ≤ 90 := by
  have hfull_pw := pairwise_progresses_attempt mp
  have hfull_bound : ∀ p ∈ progressesOf (attemptEvents mp), p ≤ 90 := by
    intro p hp
    rw [progressesOf_attemptEvents] at hp
    simp only [List.mem_append, List.mem_cons, List.mem_singleton] at hp
    rcases hp with (rfl | rfl | hp) | rfl | h
    · omega
    · omega
    · obtain ⟨q, hq, rfl⟩ := List.mem_map.mp hp
      exact crawlProgress_le_90 (mem_crawl_pages hq)
    · omega
    · exact absurd h (List.not_mem_nil p)
  cases fail with
  | none => exact ⟨hfull_pw.chain', hfull_bound⟩
  | some ke =>
    have hsub : List.Sublist (progressesOf ((attemptEvents mp).take ke.1))
        (progressesOf (attemptEvents mp)) :=
      List.Sublist.filterMap _ (List.take_sublist ke.1 (attemptEvents mp))
    constructor
    · exact hfull_pw.chain'.sublist hsub
    · intro p hp
      exact hfull_bound p (hsub.subset hp)

/-- A Redis `GET` hit comes from an entry that has not yet expired. -/
theorem redisGet_eq_some {st : RedisStore} {key s : String}
    (h : redisGet st key = some s) :
    ∃ expiresAt, st.entries key = some (s, expiresAt) ∧ st.now < expiresAt := by
  unfold redisGet at h
  rcases he : st.entries key with _ | ⟨vs, expiresAt⟩
  · rw [he] at h
    exact Option.noConfusion h
  · rw [he] at h
    have h' : (if st.now < expiresAt then some vs else none) = some s := h
    by_cases ht : st.now < expiresAt
    · rw [if_pos ht] at h'
      have hvs : vs = s := Option.some.inj h'
      subst hvs
      exact ⟨expiresAt, rfl, ht⟩
    · rw [if_neg ht] at h'
      exact Option.noConfusion h'

/-! ## Claim theorems -/

/-- C1, counterexample: with the decorator's `max_retries = 3`, a job whose
lookup raises a transient error on every attempt executes the task body 4
times — one initial attempt plus 3 retries — before reaching `FAILED`, not
exactly 3 times as the claim states. -/
theorem c1_counterexample_attempt_count :
    (celeryRun 3 100 alwaysTransientEnv).attempts = 4
  ∧ (celeryRun 3 100 alwaysTransientEnv).attempts ≠ 3
  ∧ (celeryRun 3 100 alwaysTransientEnv).final = .failed "network timeout" := by
  decide

/-- C1, amended: for every page limit and every family of transient errors
raised on every attempt, the lookup is attempted exactly
`max_retries + 1 = 4` times before the job reaches `FAILED`, and the
captured error is the message of the error raised by the last (fourth)
attempt. -/
theorem c1_amended_retry_bound (maxPages : Nat) (fails : Nat → Nat × String) :
    (celeryRun 3 maxPages
        (fun n => some ((fails n).1, ⟨.transient, (fails n).2⟩))).attempts = 4
  ∧ (celeryRun 3 maxPages
        (fun n => some ((fails n).1, ⟨.transient, (fails n).2⟩))).final =
      .failed (fails 3).2 :=
  ⟨rfl, rfl⟩

/-- C2, counterexample: a permanent error ("invalid argument") raised by
every attempt is auto-retried like any other exception — the job is
re-attempted 4 times in total instead of transitioning to `FAILED`
immediately after the first attempt. -/
theorem c2_counterexample_permanent_retried :
    (celeryRun 3 100 alwaysPermanentEnv).attempts = 4
  ∧ (celeryRun 3 100 alwaysPermanentEnv).attempts ≠ 1
  ∧ (celeryRun 3 100 alwaysPermanentEnv).final = .failed "invalid argument" := by
  decide

/-- C2, amended: permanent external errors receive no special treatment.
`autoretry_for=(Exception,)` matches every exception, so a permanent error
raised by a phase is retried like a transient one (a job whose first attempt
fails permanently is re-attempted and can still succeed), and a permanent
API error inside the Gemini lookup never propagates at all — the service
swallows it and returns the empty string. -/
theorem c2_amended_permanent_not_special :
    (∀ e : PyErr, autoretryFor e = true)
  ∧ (∀ (maxPages k : Nat) (msg : String),
      (celeryRun 3 maxPages (permanentOnFirstEnv k msg)).attempts = 2
    ∧ (celeryRun 3 maxPages (permanentOnFirstEnv k msg)).final =
        .success ⟨min maxPages 50, min maxPages 50⟩)
  ∧ (∀ e : ApiErr,
      invoke_gemini_model "Summarize this page" "gemini-2.5-pro"
        "application/json" true (.raise e) = .ok "") :=
  ⟨fun _ => rfl, fun _ _ _ => ⟨rfl, rfl⟩, fun _ => rfl⟩

/-- C3: a status read for a job identifier that no submission ever returned
does not produce a "not found" result: the endpoint answers `200 OK` with a
default `PENDING` record (`AsyncResult` is always truthy, so the 404 guard
the docstring promises is dead code). -/
theorem c3_unknown_id_yields_default_pending :
    get_audit_status emptyBackend "unknown-job-id" =
      .ok ⟨"unknown-job-id", "PENDING", none, none, none,
        "Task is waiting to be processed"⟩
  ∧ ∀ e : HttpErr, get_audit_status emptyBackend "unknown-job-id" ≠ .error e :=
  ⟨rfl, fun _ h => Except.noConfusion h⟩

/-- C4: when the Redis client is initialized but the write fails with a
`redis.RedisError`, `_set_cached_result` does not complete quietly: Python
evaluates the handler tuple `(redis.RedisError, json.JSONEncodeError)`, the
missing `json.JSONEncodeError` attribute raises `AttributeError`, and that
exception propagates to the caller. -/
theorem c4_set_raises_attribute_error :
    set_cached_result true (.raiseRedis "Connection reset by peer") =
      .error .attributeError
  ∧ set_cached_result true (.raiseRedis "Connection reset by peer") ≠ .ok () :=
  ⟨rfl, fun h => Except.noConfusion h⟩

/-- C8: a submission with `max_pages = 0` and no failures still passes
through all four phases in order and reaches `SUCCEEDED` in a single
attempt with a completed count of 0; the published progress milestones are
0, 5 and 90. -/
theorem c8_zero_max_pages_boundary :
    (celeryRun 3 0 noFailEnv).attempts = 1
  ∧ (celeryRun 3 0 noFailEnv).final = .success ⟨0, 0⟩
  ∧ phasesOf (celeryRun 3 0 noFailEnv).events =
      ["initialization", "discovery", "crawling", "analysis"]
  ∧ progressesOf (celeryRun 3 0 noFailEnv).events = [0, 5, 90] := by
  decide

/-- C10: `invoke_claude_model(prompt, model_id)` returns exactly what
`invoke_gemini_model(prompt, response_mime_type="application/json")` returns
under the same client state and API behaviour, and its `model_id` argument
is ignored. -/
theorem c10_claude_wrapper_equivalence :
    ∀ (prompt : String) (model_id : Option String) (ci : Bool) (api : ApiResult),
      (invoke_claude_model prompt model_id ci api =
        invoke_gemini_model prompt "gemini-2.5-pro" "application/json" ci api)
    ∧ ∀ model_id2 : Option String,
        invoke_claude_model prompt model_id ci api =
          invoke_claude_model prompt model_id2 ci api :=
  fun _ _ _ _ => ⟨rfl, fun _ => rfl⟩

/-- C5: cache key derivation is deterministic and order-independent — any
two permutation-equal parameter lists yield the identical key — and the key
is the prefix joined to a fixed-length SHA-256 hex digest, so its length is
always `prefix.length + 1 + 64`. -/
theorem c5_cache_key_order_independent :
    (∀ (pfx : String) (l₁ l₂ : List (String × String)), l₁.Perm l₂ →
      generate_cache_key pfx l₁ = generate_cache_key pfx l₂)
  ∧ (∀ (pfx : String) (params : List (String × String)),
      (generate_cache_key pfx params).length = pfx.length + 65) := by
  constructor
  · intro pfx l₁ l₂ h
    unfold generate_cache_key keyData
    rw [sortedParams_perm h]
  · intro pfx params
    unfold generate_cache_key
    rw [String.length_append, String.length_append, sha256hex_length]
    have h1 : (":" : String).length = 1 := rfl
    omega

/-- C5, witness: `key("lookupX", {a:1, b:2})` equals
`key("lookupX", {b:2, a:1})`. -/
theorem c5_cache_key_order_witness :
    ([("a", "1"), ("b", "2")] : List (String × String)).Perm [("b", "2"), ("a", "1")]
  ∧ generate_cache_key "lookupX" [("a", "1"), ("b", "2")] =
      generate_cache_key "lookupX" [("b", "2"), ("a", "1")] :=
  ⟨by decide, c5_cache_key_order_independent.1 "lookupX" _ _ (by decide)⟩

/-- C6, counterexample: when the first attempt is aborted after publishing
progress 5 and the retry then runs to completion, the job's lifetime
publishes the progress sequence 0, 5, 0, 5, 90 — the pair (5, 0) across the
retry boundary decreases, so progress is not non-decreasing across retry
attempts. -/
theorem c6_counterexample_progress_resets :
    progressesOf (celeryRun 3 0 abortedThenCleanEnv).events = [0, 5, 0, 5, 90]
  ∧ ¬ List.Chain' (· ≤ ·) (progressesOf (celeryRun 3 0 abortedThenCleanEnv).events) := by
  refine ⟨by decide, fun h => ?_⟩
  rw [show progressesOf (celeryRun 3 0 abortedThenCleanEnv).events = [0, 5, 0, 5, 90]
    from by decide] at h
  rw [List.chain'_cons, List.chain'_cons] at h
  exact absurd h.2.1 (by omega)

/-- C6, amended: within a single execution attempt (complete or aborted at
any point) the published progress values are non-decreasing, and every
published value is at most 90 — in particular 100 is never carried by a
`PROGRESS` envelope, so 100 can only be associated with the terminal
`SUCCEEDED` state; across retries progress restarts at 0. -/
theorem c6_amended_progress_monotone_within_attempt (maxPages : Nat)
    (fail : Option (Nat × PyErr)) :
    List.Chain' (· ≤ ·) (progressesOf (runAttempt maxPages fail).1)
  ∧ ∀ p ∈ progressesOf (runAttempt maxPages fail).1, p ≤ 90 :=
  attempt_progress_invariant maxPages fail

/-- C6, witness: on the complete attempt with `max_pages = 100` the published
progress sequence is chain-ordered and the member 90 is within bound. -/
theorem c6_amended_progress_witness :
    List.Chain' (· ≤ ·) (progressesOf (runAttempt 100 none).1)
  ∧ (90 ∈ progressesOf (runAttempt 100 none).1 ∧ 90 ≤ 90) :=
  ⟨(c6_amended_progress_monotone_within_attempt 100 none).1,
   by decide,
   (c6_amended_progress_monotone_within_attempt 100 none).2 90 (by decide)⟩

/-- The two facts C7 needs about a cache read: it always returns (never
raises), and a returned value comes from an unexpired entry that decodes. -/
theorem get_cached_result_characterization {V : Type} (clientAvailable : Bool)
    (conn : ConnOutcome) (key : String) (decode : String → Except String V) :
    (∃ r, get_cached_result clientAvailable conn key decode = .ok r)
  ∧ ∀ v, get_cached_result clientAvailable conn key decode = .ok (some v) →
      ∃ st s expiresAt, conn = .fromStore st
        ∧ st.entries key = some (s, expiresAt)
        ∧ st.now < expiresAt ∧ decode s = .ok v := by
  unfold get_cached_result
  cases clientAvailable with
  | false => exact ⟨⟨none, rfl⟩, fun v h => by simp at h⟩
  | true =>
    cases conn with
    | raiseRedis m => exact ⟨⟨none, by simp⟩, fun v h => by simp at h⟩
    | fromStore st =>
      cases hg : redisGet st key with
      | none => exact ⟨⟨none, by simp [hg]⟩, fun v h => by simp [hg] at h⟩
      | some s =>
        by_cases hs : s = ""
        · subst hs
          exact ⟨⟨none, by simp [hg]⟩, fun v h => by simp [hg] at h⟩
        · cases hd : decode s with
          | error msg =>
            exact ⟨⟨none, by simp [hg, hs, hd]⟩, fun v h => by simp [hg, hs, hd] at h⟩
          | ok v0 =>
            refine ⟨⟨some v0, by simp [hg, hs, hd]⟩, fun v h => ?_⟩
            have hv : v0 = v := by simp [hg, hs, hd] at h; exact h
            subst hv
            obtain ⟨expiresAt, he, ht⟩ := redisGet_eq_some hg
            exact ⟨st, s, expiresAt, rfl, he, ht, hd⟩

/-- C7: `_get_cached_result` never raises — every execution returns a value
or a miss; it returns a value only when the connection reached a store
holding an unexpired entry for the key whose payload decodes successfully;
and both an unavailable client and an error contacting the backing store
degrade to a miss. -/
theorem c7_get_miss_safe_and_unexpired_only {V : Type} (clientAvailable : Bool)
    (conn : ConnOutcome) (key : String) (decode : String → Except String V) :
    (∃ r, get_cached_result clientAvailable conn key decode = .ok r)
  ∧ (∀ v, get_cached_result clientAvailable conn key decode = .ok (some v) →
      ∃ st s expiresAt, conn = .fromStore st
        ∧ st.entries key = some (s, expiresAt)
        ∧ st.now < expiresAt ∧ decode s = .ok v)
  ∧ (∀ m, get_cached_result clientAvailable (.raiseRedis m) key decode = .ok none)
  ∧ get_cached_result false conn key decode = .ok none :=
  ⟨(get_cached_result_characterization clientAvailable conn key decode).1,
   (get_cached_result_characterization clientAvailable conn key decode).2,
   fun m => by cases clientAvailable <;> rfl,
   rfl⟩

/-- C7, witness: a healthy store with an unexpired entry produces exactly
that value, and the theorem recovers the entry from the hit. -/
theorem c7_get_witness :
    get_cached_result true (.fromStore witnessStore) "pagespeed:abc" witnessDecode
      = .ok (some "cached")
  ∧ ∃ st s expiresAt, ConnOutcome.fromStore witnessStore = .fromStore st
      ∧ st.entries "pagespeed:abc" = some (s, expiresAt)
      ∧ st.now < expiresAt ∧ witnessDecode s = .ok "cached" :=
  ⟨rfl,
   (c7_get_miss_safe_and_unexpired_only true (.fromStore witnessStore)
      "pagespeed:abc" witnessDecode).2.1 "cached" rfl⟩

/-- C9, counterexample: with an empty prompt and an uninitialized Vertex AI
client, `invoke_gemini_model` raises `ValueError`, not `RuntimeError` — so
"raises RuntimeError if and only if the client is uninitialized" fails: the
prompt check runs first. -/
theorem c9_counterexample_blank_prompt_precedence :
    invoke_gemini_model "" "gemini-2.5-pro" "application/json" false (.success "ok")
      = .error .valueError
  ∧ invoke_gemini_model "" "gemini-2.5-pro" "application/json" false (.success "ok")
      ≠ .error .runtimeError :=
  ⟨rfl, fun h => PyExc.noConfusion (Except.error.inj h)⟩

/-- C9, amended: `invoke_gemini_model` raises `ValueError` iff the prompt is
empty or whitespace-only; raises `RuntimeError` iff the prompt is non-blank
and the client is uninitialized; and otherwise never raises — it returns the
response text on success and the empty string for every caught API or
unexpected exception. -/
theorem c9_amended_raise_characterization (prompt model_name mime : String)
    (ci : Bool) (api : ApiResult) :
    (invoke_gemini_model prompt model_name mime ci api = .error .valueError ↔
      pyBlank prompt = true)
  ∧ (invoke_gemini_model prompt model_name mime ci api = .error .runtimeError ↔
      (pyBlank prompt = false ∧ ci = false))
  ∧ (∀ s, invoke_gemini_model prompt model_name mime ci api = .ok s ↔
      (pyBlank prompt = false ∧ ci = true ∧ s = apiResultText api)) := by
  unfold invoke_gemini_model
  cases hb : pyBlank prompt <;> cases ci <;> cases api <;>
    simp [apiResultText, eq_comm]

end ProjectAether
